import Mathlib

/-!
Shallow embedding of the Huskoll Python client library
(`src/lib/huskoll/Huskoll.py` and `src/lib/huskoll/Exceptions.py`).

The library is a thin HTTP client: a `Device` handle sends POST requests to
two fixed endpoints and parses the JSON responses.  We embed the pure
request-construction / response-validation / field-mapping logic.  The HTTP
transport is modelled by passing the (already JSON-decoded) server response
object to each operation explicitly; the requests an operation would send
are returned as an explicit trace.  Python's dynamic values (the JSON field
values and the dynamically typed attributes of the `Status` object) are
modelled by the sum type `PyVal` of strings and numbers, with Python floats
represented exactly as rationals (no rounding behaviour of the library is
at stake: the library only adds, subtracts and converts).  Raised Python
exceptions are modelled with `Except`.
-/

set_option autoImplicit false

namespace Huskoll

/-- A dynamically typed Python value as it appears in the decoded JSON
responses and in the fields of the `Status` object: either a `str` or a
numeric value (`int`/`float`, represented exactly as a rational). -/
inductive PyVal where
  | vstr (s : String)
  | vnum (q : ℚ)
  deriving DecidableEq, Repr

/-- The Python exceptions the embedded code can raise.  `responseError`
is the library's own `ResponseError` from `Exceptions.py`; the others are
builtin Python exceptions (carrying the offending key / attribute /
value). -/
inductive Exc where
  | responseError (msg : String)
  | keyError (key : String)
  | attributeError (attr : String)
  | typeError (msg : String)
  | valueError (msg : String)
  deriving DecidableEq, Repr

/-- A decoded JSON object (Python dict with string keys), as produced by
`r.json()` on a response of the Huskoll API. -/
abbrev JsonObj := List (String × PyVal)

/-- A naive-datetime value, the result of `dateutil.parser.parse` on the
API's alarm timestamps. -/
structure DateTime where
  year : Nat
  month : Nat
  day : Nat
  hour : Nat
  minute : Nat
  second : Nat
  deriving DecidableEq, Repr

/-- Value of a list of decimal digit characters. -/
def digitsToNat (cs : List Char) : Nat :=
  cs.foldl (fun n c => 10 * n + (c.toNat - 48)) 0

/-- Parse a non-empty all-digit character list into a `Nat`. -/
def parseNatChars (cs : List Char) : Option Nat :=
  if cs ≠ [] ∧ cs.all Char.isDigit then some (digitsToNat cs) else none

/-- Split a character list on every occurrence of the character `c`
(Python's `str.split(c)` on a single-character separator). -/
def splitOnChar (c : Char) : List Char → List (List Char)
  | [] => [[]]
  | x :: xs =>
    match splitOnChar c xs with
    | [] => if x = c then [[], []] else [[x]]
    | y :: ys => if x = c then [] :: y :: ys else (x :: y) :: ys

/-- Whitespace as stripped by Python's `float()` around a numeric
literal. -/
def isSpaceChar (c : Char) : Bool :=
  c = ' ' || c = '\t' || c = '\n' || c = '\r'

/-- Strip leading and trailing whitespace from a character list. -/
def trimChars (cs : List Char) : List Char :=
  ((cs.dropWhile isSpaceChar).reverse.dropWhile isSpaceChar).reverse

/-- ASCII lowercasing of one character (the alphabet the Huskoll
acknowledgment values use). -/
def charLower (c : Char) : Char :=
  if 'A' ≤ c ∧ c ≤ 'Z' then Char.ofNat (c.toNat + 32) else c

/-- Model of Python's `str.lower()` (ASCII range). -/
def strLower (s : String) : String :=
  String.mk (s.toList.map charLower)

/-- Model of Python's builtin `float()` applied to a string, restricted to
the plain decimal literals the Huskoll API uses (optional sign, integer
part, optional fractional part).  Returns `none` where Python raises
`ValueError`. -/
def pyFloatOfString (s : String) : Option ℚ :=
  let cs := trimChars s.toList
  let (neg, cs) :=
    match cs with
    | '-' :: rest => (true, rest)
    | '+' :: rest => (false, rest)
    | rest => (false, rest)
  match splitOnChar '.' cs with
  | [intPart] => do
      let n ← parseNatChars intPart
      pure (if neg then -(n : ℚ) else (n : ℚ))
  | [intPart, fracPart] =>
      if intPart = [] ∧ fracPart = [] then none
      else if (intPart.all Char.isDigit) ∧ (fracPart.all Char.isDigit) then
        let ip : ℚ := digitsToNat intPart
        let fp : ℚ := (digitsToNat fracPart : ℚ) / ((10 : ℚ) ^ fracPart.length)
        some (if neg then -(ip + fp) else ip + fp)
      else none
  | _ => none

/-- Model of Python's builtin `float()` on a dynamic value: numbers pass
through, strings are parsed (a `ValueError` is raised on a malformed
string). -/
def pyFloat : PyVal → Except Exc ℚ
  | .vnum q => .ok q
  | .vstr s =>
    match pyFloatOfString s with
    | some q => .ok q
    | none => .error (.valueError s)

/-- Model of Python's `str()` on a float value: a decimal rendering with at
least one fractional digit (`str(23.0) = "23.0"`, `str(20.5) = "20.5"`).
Rationals that are not finite decimals cannot arise from Python floats in
the concrete runs we consider; they get a fraction rendering as a total
fallback. -/
def floatRepr (q : ℚ) : String :=
  let sign := if q < 0 then "-" else ""
  let a := |q|
  if a.den = 1 then sign ++ toString a.num ++ ".0"
  else
    match (List.range 17).find? (fun k => (a * (10 : ℚ) ^ (k + 1)).den = 1) with
    | some k =>
        let scaled := (a * (10 : ℚ) ^ (k + 1)).num.toNat
        let pow := 10 ^ (k + 1)
        let fpStr := toString (scaled % pow)
        let pad := String.mk (List.replicate (k + 1 - fpStr.length) '0')
        sign ++ toString (scaled / pow) ++ "." ++ pad ++ fpStr
    | none => sign ++ toString a.num ++ "/" ++ toString a.den

/-- Model of Python's `str()` on a dynamic value (also the rendering used
by f-string interpolation). -/
def pyStr : PyVal → String
  | .vstr s => s
  | .vnum q => floatRepr q

/-- Model of Python's `repr()` on a dynamic value, used in the dict `repr`
appearing in one error message. -/
def pyValRepr : PyVal → String
  | .vstr s => "'" ++ s ++ "'"
  | .vnum q => floatRepr q

/-- Model of Python's `repr()` of a decoded JSON dict. -/
def jsonRepr (o : JsonObj) : String :=
  "\x7b" ++ String.intercalate ", " (o.map (fun kv => "'" ++ kv.1 ++ "': " ++ pyValRepr kv.2)) ++ "\x7d"

/-- The separator `"UTC"` as a character list. -/
def utcChars : List Char := ['U', 'T', 'C']

/-- The prefix of `l` strictly before the first occurrence of `sep`
(`l` itself when `sep` does not occur): this is exactly Python's
`l.split(sep)[0]`. -/
def stripFromFirst (sep : List Char) : List Char → List Char
  | [] => []
  | c :: cs => if sep.isPrefixOf (c :: cs) then [] else c :: stripFromFirst sep cs

/-- `true` when `sep` occurs as a contiguous sublist of `l`. -/
def hasSubstr (sep : List Char) : List Char → Bool
  | [] => decide (sep = [])
  | c :: cs => sep.isPrefixOf (c :: cs) || hasSubstr sep cs

/-- Embedding of the alarm pre-processing `resp_json["alarm"].split("UTC")[0]`
in `Device.get_status`. -/
def alarmPrefix (s : String) : String :=
  String.mk (stripFromFirst utcChars s.toList)

/-- Model of `dateutil.parser.parse`, restricted to the
`"YYYY-MM-DD HH:MM:SS"` shape the Huskoll API's alarm field uses (after
stripping).  Returns `none` where the parser raises. -/
def parseDateTime (s : String) : Option DateTime :=
  match splitOnChar ' ' s.toList with
  | [datePart, timePart] =>
    match splitOnChar '-' datePart, splitOnChar ':' timePart with
    | [y, mo, da], [h, mi, se] => do
        let yn ← parseNatChars y
        let mon ← parseNatChars mo
        let dan ← parseNatChars da
        let hn ← parseNatChars h
        let min ← parseNatChars mi
        let sen ← parseNatChars se
        pure ⟨yn, mon, dan, hn, min, sen⟩
    | _, _ => none
  | _ => none

/-- The `Status` object (`class Status` in `Huskoll.py`): a snapshot of the
device's operating parameters.  The fields `status`, `power`, `mode`,
`fan_speed`, `hardware_generation` and `current_set_point` /
`current_env_temperature` are dynamically typed in Python; we keep them as
`PyVal` so that the string/float distinction the code manipulates is
observable. -/
structure Status where
  status : PyVal
  power : PyVal
  mode : PyVal
  current_set_point : PyVal
  fan_speed : PyVal
  current_env_temperature : PyVal
  last_alarm : DateTime
  hardware_generation : PyVal
  deriving DecidableEq, Repr

/-- `Status.__init__`: stores the given values, coercing
`current_set_point` and `current_env_temperature` with `float()` (which can
raise on a malformed string, hence `Except`). -/
def Status.init (status power mode current_set_point fan_speed current_env_temperature : PyVal)
    (last_alarm : DateTime) (hardware_generation : PyVal) : Except Exc Status :=
  match pyFloat current_set_point with
  | .error e => .error e
  | .ok sp =>
    match pyFloat current_env_temperature with
    | .error e => .error e
    | .ok et =>
      .ok ⟨status, power, mode, .vnum sp, fan_speed, .vnum et, last_alarm, hardware_generation⟩

/-- The `Device` handle (`class Device`).  `status`, `status_json` and
`hardware_generation` start out as `None` (`Device.__init__`). -/
structure Device where
  hardware_id : String
  token : String
  status : Option Status
  status_json : Option JsonObj
  hardware_generation : Option PyVal
  deriving DecidableEq, Repr

/-- `Device.__init__`. -/
def Device.init (hardware_id token : String) : Device :=
  ⟨hardware_id, token, none, none, none⟩

/-- `Device.generate_request_auth`: the `{"token": ..., "hwid": ...}`
parameter mapping sent with every request. -/
def generate_request_auth (d : Device) : List (String × PyVal) :=
  [("token", .vstr d.token), ("hwid", .vstr d.hardware_id)]

/-- Fan mode constants of `Device`. -/
def FAN_AUTO : PyVal := .vstr "auto"

def FAN_LOW : PyVal := .vstr "low"

def FAN_MEDIUM : PyVal := .vstr "medium"

def FAN_HIGH : PyVal := .vstr "high"

/-- Heating mode constants of `Device`. -/
def COOL : PyVal := .vstr "cool"

def HEAT : PyVal := .vstr "heat"

/-- Power mode constants of `Device`. -/
def POWER_OFF : PyVal := .vstr "off"

def POWER_ON : PyVal := .vstr "on"

/-- The evaluation of the `Status(...)` constructor call in
`Device.get_status`: the argument expressions are evaluated left to right
(each JSON field lookup can raise `KeyError`, each `float()` can raise
`ValueError`, `.split` on a non-string raises `AttributeError`, and an
unparsable stripped alarm string makes `dateutil.parser.parse` raise),
then `Status.__init__` runs. -/
def buildStatus (resp : JsonObj) (hwgen : PyVal) : Except Exc Status :=
  match List.lookup "status" resp with
  | none => .error (.keyError "status")
  | some stv =>
    match List.lookup "power" resp with
    | none => .error (.keyError "power")
    | some pw =>
      match List.lookup "mode" resp with
      | none => .error (.keyError "mode")
      | some md =>
        match List.lookup "setpoint" resp with
        | none => .error (.keyError "setpoint")
        | some spRaw =>
          match pyFloat spRaw with
          | .error e => .error e
          | .ok sp =>
            match List.lookup "fan" resp with
            | none => .error (.keyError "fan")
            | some fan =>
              match List.lookup "temperature" resp with
              | none => .error (.keyError "temperature")
              | some tRaw =>
                match pyFloat tRaw with
                | .error e => .error e
                | .ok tq =>
                  match List.lookup "alarm" resp with
                  | none => .error (.keyError "alarm")
                  | some (.vnum _) => .error (.attributeError "split")
                  | some (.vstr aStr) =>
                    match parseDateTime (alarmPrefix aStr) with
                    | none => .error (.valueError aStr)
                    | some la => Status.init stv pw md (.vnum sp) fan (.vnum tq) la hwgen

/-- What the Python `get_status` call hands back to its caller when it does
not raise: either the freshly built `Status`, or — on an `error` payload —
a `ResponseError` *object* returned as an ordinary value (the code says
`return ResponseError(...)`, it does not `raise`). -/
inductive GetRet where
  | statusVal (st : Status)
  | errorObj (msg : String)
  deriving DecidableEq, Repr

/-- `Device.get_status`, given the decoded JSON object of the server's
response to the status-get request.  Returns the updated handle together
with the call's outcome (`Except.error` = a raised exception).  Mirrors the
source's order: the `error` check runs first (before any mutation); then
`self.hardware_generation` is assigned; then the `Status` is built and
assigned to `self.status`. -/
def get_status (d : Device) (resp : JsonObj) : Device × Except Exc GetRet :=
  match List.lookup "error" resp with
  | some v =>
      (d, .ok (.errorObj ("Huskoll server returned the following error: " ++ pyStr v)))
  | none =>
    match List.lookup "hw_generation" resp with
    | none => (d, .error (.keyError "hw_generation"))
    | some hwgen =>
      let d1 : Device := { d with hardware_generation := some hwgen }
      match buildStatus resp hwgen with
      | .error e => (d1, .error e)
      | .ok st => ({ d1 with status := some st }, .ok (.statusVal st))

/-- A request the handle sends: the status-get POST or the status-set POST,
with its form-encoded body. -/
inductive Request where
  | getReq (data : List (String × PyVal))
  | setReq (data : List (String × PyVal))
  deriving DecidableEq, Repr

/-- `true` on a status-get request. -/
def Request.isGet : Request → Bool
  | .getReq _ => true
  | .setReq _ => false

/-- Number of status-get requests in a trace. -/
def countGets (tr : List Request) : Nat :=
  (tr.filter Request.isGet).length

/-- The `"setpoint"` body entries of the status-set requests in a trace. -/
def sentSetpoints (tr : List Request) : List (Option PyVal) :=
  tr.filterMap (fun r =>
    match r with
    | .setReq data => some (List.lookup "setpoint" data)
    | .getReq _ => none)

instance {ε α : Type} [DecidableEq ε] [DecidableEq α] : DecidableEq (Except ε α) := fun x y =>
  match x, y with
  | .ok a, .ok b => if h : a = b then .isTrue (by rw [h]) else .isFalse (by simp [h])
  | .error a, .error b => if h : a = b then .isTrue (by rw [h]) else .isFalse (by simp [h])
  | .ok _, .error _ => .isFalse (by simp)
  | .error _, .ok _ => .isFalse (by simp)

/-- Outcome of a call to `update_status` (or one of its convenience
wrappers): the handle afterwards, the requests sent, and the call's result
(`ok` = the Python function returned `None`). -/
structure UpdateOut where
  device : Device
  requests : List Request
  result : Except Exc Unit
  deriving DecidableEq, Repr

/-- The response-validation tail of `Device.update_status`: look up the
`status` key, lowercase it, accept `"ack"`, reject `"nak"` and anything
else with a `ResponseError`, and reject a missing `status` key with a
`ResponseError` naming the body.  (`.lower()` on a non-string raises
`AttributeError`.) -/
def validateSetResponse (setResp : JsonObj) : Except Exc Unit :=
  match List.lookup "status" setResp with
  | none =>
      .error (.responseError ("\"status\" key not present in body! (body: " ++ jsonRepr setResp ++ ")"))
  | some (.vnum _) => .error (.attributeError "lower")
  | some (.vstr s) =>
    let status := strLower s
    if status = "nak" then
      .error (.responseError "Server responded with nak (set data not acknowledged).")
    else if status ≠ "ack" then
      .error (.responseError ("Server responded with an unknown response: " ++ status ++ "."))
    else .ok ()

/-- The second half of `Device.update_status`, once all four parameters
have a value: build the request body from the auth parameters, write the
new values into the handle's cached status (`self.status.power = ...` up
to `self.status.current_set_point = ... = str(new_temperature)` — an
`AttributeError` if the cache is `None`), send the status-set request, and
validate the response. -/
def sendUpdate (d : Device) (tr : List Request) (p m f t : PyVal) (setResp : JsonObj) : UpdateOut :=
  match d.status with
  | none => ⟨d, tr, .error (.attributeError "power")⟩
  | some st =>
    let data := generate_request_auth d ++
      [("power", p), ("mode", m), ("fan", f), ("setpoint", PyVal.vstr (pyStr t))]
    let d1 : Device :=
      { d with status := some { st with power := p, mode := m, fan_speed := f,
                                        current_set_point := .vstr (pyStr t) } }
    ⟨d1, tr ++ [.setReq data], validateSetResponse setResp⟩

/-- The attribute named by the first omitted parameter, in the source's
fill order (`power`, `mode`, `fan_speed`, `current_set_point`): the
attribute whose access fails when `get_status` handed back a
`ResponseError` object instead of a `Status`. -/
def firstOmitted (np nm nf nt : Option PyVal) : String :=
  if np.isNone then "power"
  else if nm.isNone then "mode"
  else if nf.isNone then "fan_speed"
  else if nt.isNone then "current_set_point"
  else ""

/-- The first half of `Device.update_status`: `if None in [new_power_status,
new_mode, new_fan_speed, new_temperature]`, fetch the device status and
fill every omitted parameter from the freshly returned record (accessing an
attribute of a returned `ResponseError` object raises `AttributeError`). -/
def fillParams (d : Device) (np nm nf nt : Option PyVal) (getResp : JsonObj) :
    Device × List Request × Except Exc (PyVal × PyVal × PyVal × PyVal) :=
  match np, nm, nf, nt with
  | some p, some m, some f, some t => (d, [], .ok (p, m, f, t))
  | np, nm, nf, nt =>
    let out := get_status d getResp
    let tr := [Request.getReq (generate_request_auth d)]
    match out.2 with
    | .error e => (out.1, tr, .error e)
    | .ok (.errorObj _) => (out.1, tr, .error (.attributeError (firstOmitted np nm nf nt)))
    | .ok (.statusVal fresh) =>
        (out.1, tr, .ok (np.getD fresh.power, nm.getD fresh.mode,
                         nf.getD fresh.fan_speed, nt.getD fresh.current_set_point))

/-- `Device.update_status`, given the decoded JSON responses the server
would return to the (conditional) status-get request and to the status-set
request. -/
def update_status (d : Device) (np nm nf nt : Option PyVal) (getResp setResp : JsonObj) : UpdateOut :=
  match fillParams d np nm nf nt getResp with
  | (d1, tr, .error e) => ⟨d1, tr, .error e⟩
  | (d1, tr, .ok (p, m, f, t)) => sendUpdate d1 tr p m f t setResp

/-- `Device.power_off`. -/
def power_off (d : Device) (getResp setResp : JsonObj) : UpdateOut :=
  update_status d (some POWER_OFF) none none none getResp setResp

/-- `Device.power_on`. -/
def power_on (d : Device) (getResp setResp : JsonObj) : UpdateOut :=
  update_status d (some POWER_ON) none none none getResp setResp

/-- `Device.set_cooling`. -/
def set_cooling (d : Device) (getResp setResp : JsonObj) : UpdateOut :=
  update_status d none (some COOL) none none getResp setResp

/-- `Device.set_heating`. -/
def set_heating (d : Device) (getResp setResp : JsonObj) : UpdateOut :=
  update_status d none (some HEAT) none none getResp setResp

/-- `Device.set_temp`: warn when `new_temp < 8 or (new_temp > 32 and not
suppress_warning)` — the Python condition with its actual operator
precedence — then update the temperature.  The returned `Bool` records
whether the advisory warning was emitted. -/
def set_temp (d : Device) (new_temp : ℚ) (suppress_warning : Bool) (getResp setResp : JsonObj) :
    UpdateOut × Bool :=
  let warned := decide (new_temp < 8) || (decide (new_temp > 32) && !suppress_warning)
  (update_status d none none none (some (.vnum new_temp)) getResp setResp, warned)

/-- `Device.change_temperature`: refresh the cached status when it is
absent or `force_status_update` is set (discarding `get_status`'s return
value), read `self.status.current_set_point` (an `AttributeError` when the
cache is still `None`; a `TypeError` when a previous update left a string
there, since `current_set_point += by` would add a number to a `str`), add
`by`, and call `update_status` with only the temperature set (which
performs its own fresh fetch, against `getResp2`). -/
def change_temperature (d : Device) (by_ : ℚ) (force_status_update : Bool)
    (getResp1 getResp2 setResp : JsonObj) : UpdateOut :=
  let step1 : Device × List Request × Option Exc :=
    if d.status.isNone || force_status_update then
      let out := get_status d getResp1
      let tr := [Request.getReq (generate_request_auth d)]
      match out.2 with
      | .error e => (out.1, tr, some e)
      | .ok _ => (out.1, tr, none)
    else (d, [], none)
  match step1 with
  | (d1, tr, some e) => ⟨d1, tr, .error e⟩
  | (d1, tr, none) =>
    match d1.status with
    | none => ⟨d1, tr, .error (.attributeError "current_set_point")⟩
    | some st =>
      match st.current_set_point with
      | .vstr _ => ⟨d1, tr, .error (.typeError "unsupported operand types for +=: str and number")⟩
      | .vnum q =>
        let out := update_status d1 none none none (some (.vnum (q + by_))) getResp2 setResp
        ⟨out.device, tr ++ out.requests, out.result⟩

/-- `Device.decrease_temperature`: `by = abs(by)`, then
`change_temperature(by=by, ...)`. -/
def decrease_temperature (d : Device) (by_ : ℚ) (force_status_update : Bool)
    (getResp1 getResp2 setResp : JsonObj) : UpdateOut :=
  change_temperature d |by_| force_status_update getResp1 getResp2 setResp

/-- `Device.increase_temperature`: forwards to `change_temperature`
unchanged. -/
def increase_temperature (d : Device) (by_ : ℚ) (force_status_update : Bool)
    (getResp1 getResp2 setResp : JsonObj) : UpdateOut :=
  change_temperature d by_ force_status_update getResp1 getResp2 setResp

/-- `true` when the dynamic value is a Python float. -/
def PyVal.isFloat : PyVal → Bool
  | .vnum _ => true
  | .vstr _ => false

/-! ### Concrete fixtures used by witnesses and counterexamples -/

/-- A well-formed status-get response, with `setpoint` sent as a string and
`temperature` sent as a number. -/
def sampleGetResp : JsonObj :=
  [("hw_generation", .vstr "2"), ("status", .vstr "OK"), ("power", .vstr "on"),
   ("mode", .vstr "heat"), ("setpoint", .vstr "20.0"), ("fan", .vstr "auto"),
   ("temperature", .vnum (39 / 2)), ("alarm", .vstr "2020-01-01 10:00:00UTC T<10")]

/-- An update response acknowledging the change. -/
def ackResp : JsonObj := [("status", PyVal.vstr "ack")]

/-- An update response acknowledging the change in mixed case. -/
def ackMixedResp : JsonObj := [("status", PyVal.vstr "ACK")]

/-- An update response refusing the change. -/
def nakResp : JsonObj := [("status", PyVal.vstr "nak")]

/-- An update response with an unrecognized acknowledgment value. -/
def maybeResp : JsonObj := [("status", PyVal.vstr "maybe")]

/-- An update response with no `status` key at all. -/
def emptyResp : JsonObj := []

/-- A freshly initialized device handle (empty cache). -/
def sampleDevice : Device := Device.init "HW1" "TOK"

/-- The `Status` that `sampleGetResp` parses into. -/
def sampleStatus : Status :=
  ⟨.vstr "OK", .vstr "on", .vstr "heat", .vnum 20, .vstr "auto", .vnum (39 / 2),
   ⟨2020, 1, 1, 10, 0, 0⟩, .vstr "2"⟩

/-- `sampleDevice` after a successful `get_status` against
`sampleGetResp`. -/
def fetchedDevice : Device :=
  { sampleDevice with status := some sampleStatus, hardware_generation := some (.vstr "2") }

/-- A device handle whose cache holds `sampleStatus` (set-point 20.0). -/
def cachedDevice : Device := { sampleDevice with status := some sampleStatus }

/-! ### Helper lemmas -/

section Theorems

attribute [local semireducible] Rat.add Rat.mul Rat.inv Rat.sub

/-- `"UTC"` cannot begin at the head of `c :: cs` even after extending
`cs` with `"UTC" ++ g`: an occurrence cannot straddle the boundary
because `"UTC"` does not overlap itself. -/
theorem utc_prefix_extend (c : Char) (cs g : List Char)
    (h : utcChars.isPrefixOf (c :: cs) = false) :
    utcChars.isPrefixOf (c :: (cs ++ utcChars ++ g)) = false := by
  match cs with
  | [] =>
    simp [utcChars, List.isPrefixOf]
  | [c2] =>
    simp [utcChars, List.isPrefixOf]
  | c2 :: c3 :: rest =>
    simp only [utcChars, List.isPrefixOf, List.cons_append, List.append_assoc] at h ⊢
    simpa using h

/-- If `"UTC"` does not occur in `t`, the prefix of `t ++ "UTC" ++ g`
before the first `"UTC"` is exactly `t`. -/
theorem stripFromFirst_utc_append (t g : List Char) (h : hasSubstr utcChars t = false) :
    stripFromFirst utcChars (t ++ utcChars ++ g) = t := by
  induction t with
  | nil =>
    simp [stripFromFirst, utcChars, List.isPrefixOf]
  | cons c cs ih =>
    simp only [hasSubstr, Bool.or_eq_false_iff] at h
    have h3 := utc_prefix_extend c cs g h.1
    simp only [List.cons_append, List.append_assoc] at h3 ⊢
    rw [stripFromFirst, if_neg (by simp [h3])]
    have := ih h.2
    simp only [List.append_assoc] at this
    rw [this]

/-- String-level version: for an alarm string of the shape
`<timestamp>UTC<garbage>` (where the timestamp part does not itself
contain `"UTC"`), the pre-processing in `get_status` recovers exactly the
timestamp part. -/
theorem alarmPrefix_append (t g : String) (h : hasSubstr utcChars t.toList = false) :
    alarmPrefix (t ++ "UTC" ++ g) = t := by
  have hdata : (t ++ "UTC" ++ g).toList = t.toList ++ utcChars ++ g.toList := by
    simp [String.toList, String.data_append]
    rfl
  unfold alarmPrefix
  rw [hdata, stripFromFirst_utc_append _ _ h]
  rfl

/-- A successful `get_status` stores the fresh record in the handle's
cache and leaves the credentials alone. -/
theorem get_status_ok (d d1 : Device) (resp : JsonObj) (fresh : Status)
    (h : get_status d resp = (d1, .ok (.statusVal fresh))) :
    d1.status = some fresh ∧ d1.hardware_id = d.hardware_id ∧ d1.token = d.token := by
  unfold get_status at h
  split at h
  · simp_all
  · split at h
    · simp_all
    · split at h
      · simp_all
      · rw [Prod.mk.injEq] at h
        obtain ⟨hd, hok⟩ := h
        simp only [Except.ok.injEq, GetRet.statusVal.injEq] at hok
        subst hd
        simp [hok]

/-- A successful `get_status` means the response had no `error` key and
the record was built by `buildStatus` from it. -/
theorem get_status_ok_build (d d1 : Device) (resp : JsonObj) (fresh : Status)
    (h : get_status d resp = (d1, .ok (.statusVal fresh))) :
    List.lookup "error" resp = none ∧
      ∃ hwgen, List.lookup "hw_generation" resp = some hwgen ∧
        buildStatus resp hwgen = .ok fresh := by
  unfold get_status at h
  split at h
  · simp_all
  next herr =>
    split at h
    · simp_all
    next hwgen hhw =>
      split at h
      · simp_all
      next st hbuild =>
        rw [Prod.mk.injEq] at h
        simp only [Except.ok.injEq, GetRet.statusVal.injEq] at h
        exact ⟨herr, hwgen, hhw, h.2 ▸ hbuild⟩

/-- Any record built from a status-get response carries its two
temperature fields as floats (the `float(...)` coercions). -/
theorem buildStatus_ok_float (resp : JsonObj) (hwgen : PyVal) (st : Status)
    (h : buildStatus resp hwgen = .ok st) :
    st.current_set_point.isFloat = true ∧ st.current_env_temperature.isFloat = true := by
  unfold buildStatus at h
  iterate 12 (all_goals try split at h)
  all_goals try (simp at h)
  simp only [Status.init, pyFloat] at h
  rw [Except.ok.injEq] at h
  subst h
  exact ⟨rfl, rfl⟩

/-- Any record built from a status-get response has its `last_alarm`
parsed from the `"UTC"`-stripped prefix of the response's alarm string. -/
theorem buildStatus_ok_alarm (resp : JsonObj) (hwgen : PyVal) (st : Status) (aStr : String)
    (h : buildStatus resp hwgen = .ok st)
    (ha : List.lookup "alarm" resp = some (.vstr aStr)) :
    parseDateTime (alarmPrefix aStr) = some st.last_alarm := by
  unfold buildStatus at h
  iterate 12 (all_goals try split at h)
  all_goals try (simp at h)
  simp only [Status.init, pyFloat] at h
  rw [Except.ok.injEq] at h
  subst h
  simp_all

/-! ### Claim theorems -/

/-- C1: on a status-get response whose payload contains an `error` key,
`get_status` does **not** raise: it returns the `ResponseError` object
(whose message wraps the server-supplied error message verbatim) as its
ordinary return value and leaves the handle unchanged — the caller
receives no `Status` record, but no exception is raised either, although
the source's own comment says `Raise an exception`.  This evaluates the
code at the failing input. -/
theorem c1_get_status_returns_error_object_instead_of_raising :
    get_status sampleDevice [("error", PyVal.vstr "Some error message")] =
      (sampleDevice,
       .ok (.errorObj "Huskoll server returned the following error: Some error message")) := by
  decide

/-- C2: with a cached set-point of 20.0, `decrease_temperature(by=3)` sends
a requested set-point of 23.0 — not the 17.0 the claim states — because
`by = abs(by)` makes the step positive and `change_temperature` always
adds; `increase_temperature(by=3)` also sends 23.0.  This evaluates the
code at the failing input. -/
theorem c2_decrease_temperature_adds_instead_of_subtracting :
    cachedDevice.status.map Status.current_set_point = some (.vnum 20)
    ∧ sentSetpoints (decrease_temperature cachedDevice 3 false
        sampleGetResp sampleGetResp ackResp).requests = [some (.vstr "23.0")]
    ∧ sentSetpoints (increase_temperature cachedDevice 3 false
        sampleGetResp sampleGetResp ackResp).requests = [some (.vstr "23.0")] := by
  exact ⟨rfl, by decide, by decide⟩

/-- C3: after `get_status` both temperature fields are floats, but a
completed (acknowledged) `update_status` leaves the cached
`current_set_point` holding the *string* `str(new_temperature)` — the
chained assignment `self.status.current_set_point = data["setpoint"] =
str(new_temperature)` writes the string into the cache — so the
floating-point invariant does not survive `update_status`.  This evaluates
the code at the failing input. -/
theorem c3_setpoint_becomes_string_after_update :
    ((get_status sampleDevice sampleGetResp).1.status.map
        (fun st => (st.current_set_point.isFloat, st.current_env_temperature.isFloat)))
      = some (true, true)
    ∧ (update_status fetchedDevice (some POWER_ON) (some HEAT) (some FAN_AUTO)
        (some (PyVal.vnum 21)) sampleGetResp ackResp).result = .ok ()
    ∧ ((update_status fetchedDevice (some POWER_ON) (some HEAT) (some FAN_AUTO)
        (some (PyVal.vnum 21)) sampleGetResp ackResp).device.status.map
        (fun st => st.current_set_point)) = some (PyVal.vstr "21.0")
    ∧ ((update_status fetchedDevice (some POWER_ON) (some HEAT) (some FAN_AUTO)
        (some (PyVal.vnum 21)) sampleGetResp ackResp).device.status.map
        (fun st => st.current_set_point.isFloat)) = some false := by
  exact ⟨by decide, by decide, by decide, by decide⟩

/-- C4 counterexample: 5 is below the documented range, yet
`set_temp(5, suppress_warning=True)` still emits the advisory warning —
suppression does not silence the lower-bound warning, refuting the claim
that with `suppress_warning` true no warning is emitted for any
out-of-range value. -/
theorem c4_counterexample_suppressed_low_value_still_warns :
    (5 : ℚ) < 8 ∧ (set_temp sampleDevice 5 true sampleGetResp ackResp).2 = true :=
  ⟨by norm_num, by decide⟩

/-- C4 (amended): `set_temp(value, suppress_warning)` emits the advisory
warning exactly when `value < 8`, or `value > 32` and `suppress_warning`
is false (the operator precedence of `value < 8 or value > 32 and not
suppress_warning`): suppression only silences the upper-bound warning,
values below 8 always warn; the update request is attempted in all cases,
independently of the warning. -/
theorem c4_set_temp_warning_precedence (d : Device) (v : ℚ) (sw : Bool) (g s : JsonObj) :
    ((set_temp d v sw g s).2 = true ↔ (v < 8 ∨ (v > 32 ∧ sw = false)))
    ∧ (set_temp d v sw g s).1 = update_status d none none none (some (.vnum v)) g s := by
  constructor
  · simp [set_temp, Bool.or_eq_true, Bool.and_eq_true, decide_eq_true_eq, Bool.not_eq_true']
  · rfl

/-- C5: `update_status` with all four parameters specified performs no
prior status fetch; with any parameter omitted (and the fetch succeeding
with the fresh record `fresh`) it performs exactly one prior fetch, and
the update request it then sends fills every omitted parameter with the
corresponding field of `fresh` — values coming only from the fresh fetch,
never from the handle's stale cache. -/
theorem c5_fetch_policy (d d1 : Device) (np nm nf nt : Option PyVal) (p m f t : PyVal)
    (g sr : JsonObj) (fresh : Status)
    (homit : np = none ∨ nm = none ∨ nf = none ∨ nt = none)
    (hget : get_status d g = (d1, .ok (.statusVal fresh))) :
    countGets (update_status d (some p) (some m) (some f) (some t) g sr).requests = 0
    ∧ (update_status d np nm nf nt g sr).requests
      = [Request.getReq (generate_request_auth d),
         Request.setReq (generate_request_auth d1 ++
           [("power", np.getD fresh.power), ("mode", nm.getD fresh.mode),
            ("fan", nf.getD fresh.fan_speed),
            ("setpoint", PyVal.vstr (pyStr (nt.getD fresh.current_set_point)))])]
    ∧ countGets (update_status d np nm nf nt g sr).requests = 1 := by
  have hst := (get_status_ok d d1 g fresh hget).1
  have h2 : (update_status d np nm nf nt g sr).requests
      = [Request.getReq (generate_request_auth d),
         Request.setReq (generate_request_auth d1 ++
           [("power", np.getD fresh.power), ("mode", nm.getD fresh.mode),
            ("fan", nf.getD fresh.fan_speed),
            ("setpoint", PyVal.vstr (pyStr (nt.getD fresh.current_set_point)))])] := by
    cases np <;> cases nm <;> cases nf <;> cases nt <;>
      try (obtain h | h | h | h := homit <;> exact Option.noConfusion h)
    all_goals simp [update_status, fillParams, hget, sendUpdate, hst]
  refine ⟨?_, h2, by rw [h2]; rfl⟩
  cases hs : d.status <;>
    simp [update_status, fillParams, sendUpdate, hs, countGets, Request.isGet]

/-- C5 witness: with the power parameter omitted, one fetch happens and the
request is filled from the freshly fetched record; with all four given, no
fetch happens. -/
theorem c5_fetch_policy_witness :
    countGets (update_status sampleDevice (some POWER_ON) (some HEAT) (some FAN_AUTO)
      (some (PyVal.vnum 21)) sampleGetResp ackResp).requests = 0
    ∧ (update_status sampleDevice none (some HEAT) (some FAN_AUTO)
        (some (PyVal.vnum 21)) sampleGetResp ackResp).requests
      = [Request.getReq (generate_request_auth sampleDevice),
         Request.setReq (generate_request_auth fetchedDevice ++
           [("power", (none : Option PyVal).getD sampleStatus.power),
            ("mode", (some HEAT).getD sampleStatus.mode),
            ("fan", (some FAN_AUTO).getD sampleStatus.fan_speed),
            ("setpoint", PyVal.vstr (pyStr ((some (PyVal.vnum 21)).getD
              sampleStatus.current_set_point)))])]
    ∧ countGets (update_status sampleDevice none (some HEAT) (some FAN_AUTO)
        (some (PyVal.vnum 21)) sampleGetResp ackResp).requests = 1 :=
  c5_fetch_policy sampleDevice fetchedDevice none (some HEAT) (some FAN_AUTO)
    (some (PyVal.vnum 21)) POWER_ON HEAT FAN_AUTO (PyVal.vnum 21) sampleGetResp ackResp
    sampleStatus (Or.inl rfl) (by decide)

/-- C6: validation of the update response (with the cache populated and all
four parameters given, so no prior fetch interferes): a `status` value
lowercasing to `"ack"` (mixed case included) succeeds; `"nak"` raises a
`ResponseError`; any other string raises a `ResponseError` naming the
unexpected value; a missing `status` key raises a `ResponseError` naming
the body. -/
theorem c6_update_response_validation (d : Device) (st : Status) (p m f t : PyVal)
    (g sr : JsonObj) (h : d.status = some st) :
    (∀ s, List.lookup "status" sr = some (.vstr s) → strLower s = "ack" →
        (update_status d (some p) (some m) (some f) (some t) g sr).result = .ok ())
    ∧ (∀ s, List.lookup "status" sr = some (.vstr s) → strLower s = "nak" →
        (update_status d (some p) (some m) (some f) (some t) g sr).result
          = .error (.responseError "Server responded with nak (set data not acknowledged)."))
    ∧ (∀ s, List.lookup "status" sr = some (.vstr s) → strLower s ≠ "ack" → strLower s ≠ "nak" →
        (update_status d (some p) (some m) (some f) (some t) g sr).result
          = .error (.responseError ("Server responded with an unknown response: " ++ strLower s ++ ".")))
    ∧ (List.lookup "status" sr = none →
        (update_status d (some p) (some m) (some f) (some t) g sr).result
          = .error (.responseError ("\"status\" key not present in body! (body: " ++ jsonRepr sr ++ ")"))) := by
  have hres : (update_status d (some p) (some m) (some f) (some t) g sr).result
      = validateSetResponse sr := by
    simp [update_status, fillParams, sendUpdate, h]
  refine ⟨?_, ?_, ?_, ?_⟩
  · intro s hl hs
    rw [hres]
    simp [validateSetResponse, hl, hs]
  · intro s hl hs
    rw [hres]
    simp [validateSetResponse, hl, hs]
  · intro s hl h1 h2
    rw [hres]
    simp [validateSetResponse, hl, h1, h2]
  · intro hl
    rw [hres]
    simp [validateSetResponse, hl]

/-- C6 witness: `{"status": "ACK"}` succeeds; `{"status": "nak"}`,
`{"status": "maybe"}` and `{}` each raise a `ResponseError`. -/
theorem c6_update_response_validation_witness :
    (update_status cachedDevice (some POWER_ON) (some HEAT) (some FAN_AUTO)
      (some (PyVal.vnum 21)) sampleGetResp ackMixedResp).result = .ok ()
    ∧ (update_status cachedDevice (some POWER_ON) (some HEAT) (some FAN_AUTO)
        (some (PyVal.vnum 21)) sampleGetResp nakResp).result
      = .error (.responseError "Server responded with nak (set data not acknowledged).")
    ∧ (update_status cachedDevice (some POWER_ON) (some HEAT) (some FAN_AUTO)
        (some (PyVal.vnum 21)) sampleGetResp maybeResp).result
      = .error (.responseError ("Server responded with an unknown response: " ++ strLower "maybe" ++ "."))
    ∧ (update_status cachedDevice (some POWER_ON) (some HEAT) (some FAN_AUTO)
        (some (PyVal.vnum 21)) sampleGetResp emptyResp).result
      = .error (.responseError ("\"status\" key not present in body! (body: " ++ jsonRepr emptyResp ++ ")")) := by
  refine ⟨(c6_update_response_validation cachedDevice sampleStatus POWER_ON HEAT FAN_AUTO
      (PyVal.vnum 21) sampleGetResp ackMixedResp rfl).1 "ACK" rfl (by decide),
    (c6_update_response_validation cachedDevice sampleStatus POWER_ON HEAT FAN_AUTO
      (PyVal.vnum 21) sampleGetResp nakResp rfl).2.1 "nak" rfl (by decide),
    (c6_update_response_validation cachedDevice sampleStatus POWER_ON HEAT FAN_AUTO
      (PyVal.vnum 21) sampleGetResp maybeResp rfl).2.2.1 "maybe" rfl (by decide) (by decide),
    (c6_update_response_validation cachedDevice sampleStatus POWER_ON HEAT FAN_AUTO
      (PyVal.vnum 21) sampleGetResp emptyResp rfl).2.2.2 rfl⟩

/-- C7: with the cache populated and all four parameters given,
`update_status` overwrites the cached status fields with the new values
(the set-point as the string `str(new_temperature)`) and sends exactly the
matching update request — and this holds for *every* update response `sr`,
in particular when validation subsequently fails: the cache is not rolled
back. -/
theorem c7_optimistic_cache_overwrite (d : Device) (st : Status) (p m f t : PyVal)
    (g sr : JsonObj) (h : d.status = some st) :
    (update_status d (some p) (some m) (some f) (some t) g sr).device.status
      = some { st with power := p, mode := m, fan_speed := f,
                       current_set_point := .vstr (pyStr t) }
    ∧ (update_status d (some p) (some m) (some f) (some t) g sr).requests
      = [Request.setReq (generate_request_auth d ++
          [("power", p), ("mode", m), ("fan", f), ("setpoint", PyVal.vstr (pyStr t))])] := by
  constructor <;> simp [update_status, fillParams, sendUpdate, h]

/-- C7 witness: a nak-rejected update still leaves the cache overwritten
with the new values. -/
theorem c7_optimistic_cache_overwrite_witness :
    (update_status cachedDevice (some POWER_OFF) (some COOL) (some FAN_LOW)
      (some (PyVal.vnum 21)) sampleGetResp nakResp).device.status
      = some { sampleStatus with power := POWER_OFF, mode := COOL, fan_speed := FAN_LOW,
                                 current_set_point := .vstr (pyStr (PyVal.vnum 21)) }
    ∧ (update_status cachedDevice (some POWER_OFF) (some COOL) (some FAN_LOW)
        (some (PyVal.vnum 21)) sampleGetResp nakResp).requests
      = [Request.setReq (generate_request_auth cachedDevice ++
          [("power", POWER_OFF), ("mode", COOL), ("fan", FAN_LOW),
           ("setpoint", PyVal.vstr (pyStr (PyVal.vnum 21)))])]
    ∧ (update_status cachedDevice (some POWER_OFF) (some COOL) (some FAN_LOW)
        (some (PyVal.vnum 21)) sampleGetResp nakResp).result
      = .error (.responseError "Server responded with nak (set data not acknowledged).") := by
  refine ⟨(c7_optimistic_cache_overwrite cachedDevice sampleStatus POWER_OFF COOL FAN_LOW
      (PyVal.vnum 21) sampleGetResp nakResp rfl).1,
    (c7_optimistic_cache_overwrite cachedDevice sampleStatus POWER_OFF COOL FAN_LOW
      (PyVal.vnum 21) sampleGetResp nakResp rfl).2, by decide⟩

/-- C8: for every alarm string of the form `<timestamp>UTC<garbage>`
(where the timestamp part does not itself contain `"UTC"`), a successful
`get_status` parses the record's `last_alarm` from exactly the prefix
before the `"UTC"` suffix, the suffix being discarded. -/
theorem c8_alarm_suffix_stripped (d d1 : Device) (resp : JsonObj) (t g : String) (st : Status)
    (halarm : List.lookup "alarm" resp = some (.vstr (t ++ "UTC" ++ g)))
    (hnoutc : hasSubstr utcChars t.toList = false)
    (hok : get_status d resp = (d1, .ok (.statusVal st))) :
    parseDateTime t = some st.last_alarm := by
  obtain ⟨-, hwgen, -, hbuild⟩ := get_status_ok_build d d1 resp st hok
  have h := buildStatus_ok_alarm resp hwgen st _ hbuild halarm
  rwa [alarmPrefix_append t g hnoutc] at h

/-- C8 witness: the alarm string `"2020-01-01 10:00:00UTC T<10"` yields the
timestamp 2020-01-01 10:00:00, the trailing `"UTC T<10"` discarded. -/
theorem c8_alarm_suffix_stripped_witness :
    parseDateTime "2020-01-01 10:00:00" = some (⟨2020, 1, 1, 10, 0, 0⟩ : DateTime) :=
  c8_alarm_suffix_stripped sampleDevice fetchedDevice sampleGetResp
    "2020-01-01 10:00:00" " T<10" sampleStatus (by decide) (by decide) (by decide)

/-- C9: on a handle whose cache was never populated, `update_status` with
all four parameters specified raises an `AttributeError` at the optimistic
cache write (`self.status.power = ...` with `self.status = None`): no
request is sent at all, the update does not complete, and the handle is
unchanged. -/
theorem c9_update_without_cache_attribute_error (d : Device) (p m f t : PyVal) (g s : JsonObj)
    (h : d.status = none) :
    update_status d (some p) (some m) (some f) (some t) g s
      = ⟨d, [], .error (.attributeError "power")⟩ := by
  simp [update_status, fillParams, sendUpdate, h]

/-- C9 witness: a freshly initialized device fails a fully specified
update with an `AttributeError` and sends nothing. -/
theorem c9_update_without_cache_witness :
    sampleDevice.status = none
    ∧ update_status sampleDevice (some POWER_ON) (some HEAT) (some FAN_AUTO)
        (some (PyVal.vnum 21)) sampleGetResp ackResp
      = ⟨sampleDevice, [], .error (.attributeError "power")⟩ :=
  ⟨rfl, c9_update_without_cache_attribute_error sampleDevice POWER_ON HEAT FAN_AUTO
    (PyVal.vnum 21) sampleGetResp ackResp rfl⟩

/-- C10: on any status-get response containing an `error` key, `get_status`
leaves the handle completely unchanged (in particular its cached status
and its hardware generation): the error path exits before any cache
update. -/
theorem c10_get_status_error_no_mutation (d : Device) (resp : JsonObj) (v : PyVal)
    (h : List.lookup "error" resp = some v) :
    (get_status d resp).1 = d := by
  simp [get_status, h]

/-- C10 witness: an error response leaves a populated handle untouched. -/
theorem c10_get_status_error_no_mutation_witness :
    (get_status fetchedDevice [("error", PyVal.vstr "Bad token")]).1 = fetchedDevice :=
  c10_get_status_error_no_mutation fetchedDevice [("error", PyVal.vstr "Bad token")]
    (PyVal.vstr "Bad token") rfl

end Theorems

end Huskoll
